import Mathlib

/-!
Verification of the seo-automation content-strategy engines.

The Python modules under src/backend/modules are shallowly embedded:

* user_intent_analyzer.py  — query-intent classification
* content_quality_checker.py — readability / E-E-A-T / SEO / completeness scoring
* topic_cluster_generator.py — pillar/cluster model, linking strategy, export
* cli_wrapper.py — entity reconstruction from decoded JSON

Modelling conventions:

* Python `str` becomes `String`/`List Char`; text processing is done on
  `List Char`.  Character classes (`\w`, `\s`, `str.lower`) are modelled on
  the ASCII range, which covers every constant the source matches against.
* Python `int` becomes `ℤ` (or `ℕ` where the source value is a count that is
  provably non-negative), Python floats become `ℚ`; `round(x, n)` is Python
  round-half-to-even, modelled exactly on `ℚ`.
* A Python function that can raise becomes an `Option`-valued function with
  `none` marking the raised exception.
* Regex scanning (`re.search`, `re.findall`, `str.count`) is modelled by
  explicit scanners that mirror the matching/backtracking behaviour of the
  concrete patterns appearing in the source.
-/

/-! ## Generic text helpers -/

/-- ASCII model of Python `str.lower` applied to a character. -/
def lowChar (c : Char) : Char := c.toLower

/-- ASCII model of Python `str.lower`. -/
def lowerL (cs : List Char) : List Char := cs.map lowChar

/-- Python whitespace (`\s`, `str.strip`, `str.split`), ASCII range. -/
def isSpacePy (c : Char) : Bool :=
  c = ' ' || c = '\t' || c = '\n' || c = '\r' || c = '\x0b' || c = '\x0c'

/-- Model of Python `str.strip()`. -/
def trimL (cs : List Char) : List Char :=
  ((cs.dropWhile isSpacePy).reverse.dropWhile isSpacePy).reverse

/-- Regex `\w` (word character), ASCII range: letters, digits, underscore. -/
def isWordChar (c : Char) : Bool := c.isAlphanum || c = '_'

/-- The character found at index `i`, if any. -/
def charAt (cs : List Char) (i : ℕ) : Option Char := cs.get? i

/-- Whether index `i` holds a word character (out of range counts as no). -/
def isWordAt (cs : List Char) (i : ℕ) : Bool :=
  match charAt cs i with
  | some c => isWordChar c
  | none => false

/-- Regex `\b`: a word boundary sits between positions `i-1` and `i` when
exactly one side is a word character (string edges count as non-word). -/
def wordBoundary (cs : List Char) (i : ℕ) : Bool :=
  (if i = 0 then false else isWordAt cs (i - 1)) != isWordAt cs i

/-- `re.search(r'\b' + re.escape(pat) + r'\b', cs)` for a literal `pat`:
some occurrence of `pat` flanked by word boundaries. -/
def wholeWordMatch (cs pat : List Char) : Bool :=
  (List.range (cs.length + 1)).any fun i =>
    pat.isPrefixOf (cs.drop i) && wordBoundary cs i && wordBoundary cs (i + pat.length)

/-- Python `pat in hay` (substring containment). -/
def containsSubL (hay pat : List Char) : Bool :=
  (List.range (hay.length + 1)).any fun i => pat.isPrefixOf (hay.drop i)

/-- Fuel-driven core of `str.count`: non-overlapping occurrences, scanning
left to right.  With fuel `hay.length + 1` this agrees with Python,
including `hay.count('') = len(hay) + 1`. -/
def countSubAux : ℕ → List Char → List Char → ℕ
  | 0, _, _ => 0
  | fuel + 1, hay, pat =>
    if pat.isPrefixOf hay then 1 + countSubAux fuel (hay.drop pat.length) pat
    else
      match hay with
      | [] => 0
      | _ :: t => countSubAux fuel t pat

/-- Python `hay.count(pat)`. -/
def countSubstr (hay pat : List Char) : ℕ := countSubAux (hay.length + 1) hay pat

/-- Fuel-driven core of replace-all (used for `str.format`'s `{topic}`
substitution): non-overlapping, left to right, the replacement is not
re-scanned. -/
def replaceSubAux : ℕ → List Char → List Char → List Char → List Char
  | 0, hay, _, _ => hay
  | fuel + 1, hay, pat, rep =>
    if pat.isPrefixOf hay then rep ++ replaceSubAux fuel (hay.drop pat.length) pat rep
    else
      match hay with
      | [] => []
      | c :: t => c :: replaceSubAux fuel t pat rep

/-- Replace every occurrence of `pat` in `hay` by `rep`. -/
def replaceSub (hay pat rep : List Char) : List Char :=
  replaceSubAux (hay.length + 1) hay pat rep

/-- Split at every character satisfying `p` (single-character separators). -/
def splitChars (p : Char → Bool) : List Char → List (List Char)
  | [] => [[]]
  | c :: rest =>
    match splitChars p rest with
    | [] => [[]]
    | g :: gs => if p c then [] :: g :: gs else (c :: g) :: gs

/-- Python `s.split()` — tokens separated by whitespace runs, no empties. -/
def splitWs (cs : List Char) : List (List Char) :=
  (splitChars isSpacePy cs).filter (· ≠ [])

/-! ## Python `round` on rationals

Python `round` uses round-half-to-even.  `pyRound q` is that integer;
`pyRound1`/`pyRound2` are `round(x, 1)` and `round(x, 2)`. -/

def pyRound (q : ℚ) : ℤ :=
  let f := ⌊q⌋
  let r := q - f
  if r < 1 / 2 then f
  else if 1 / 2 < r then f + 1
  else if f % 2 = 0 then f else f + 1

def pyRound1 (q : ℚ) : ℚ := (pyRound (q * 10) : ℚ) / 10

def pyRound2 (q : ℚ) : ℚ := (pyRound (q * 100) : ℚ) / 100

/-! ## user_intent_analyzer.py -/

/-- `UserIntentAnalyzer.INFORMATIONAL_MODIFIERS`. -/
def INFORMATIONAL_MODIFIERS : List String :=
  ["how", "what", "why", "when", "where", "who",
   "guide", "tutorial", "tips", "learn", "explain",
   "definition", "meaning", "examples", "benefits",
   "difference between", "vs", "comparison"]

/-- `UserIntentAnalyzer.NAVIGATIONAL_MODIFIERS`. -/
def NAVIGATIONAL_MODIFIERS : List String :=
  ["login", "sign in", "official site", "website",
   "homepage", "portal", "dashboard", "account"]

/-- `UserIntentAnalyzer.COMMERCIAL_MODIFIERS`. -/
def COMMERCIAL_MODIFIERS : List String :=
  ["best", "top", "review", "reviews", "comparison",
   "compare", "vs", "versus", "alternative", "alternatives",
   "cheapest", "affordable", "recommended", "rating"]

/-- `UserIntentAnalyzer.TRANSACTIONAL_MODIFIERS`. -/
def TRANSACTIONAL_MODIFIERS : List String :=
  ["buy", "purchase", "order", "shop", "price",
   "cost", "cheap", "deal", "discount", "coupon",
   "subscribe", "download", "get", "hire", "book",
   "reserve", "appointment", "quote"]

/-- The modifiers of one intent that match the query as whole words; models
the `matches` list built in `analyze_query` (per the spec design note, the
original modifier string is stored instead of the escape-stripped pattern,
a purely cosmetic difference). -/
def matchedModifiers (mods : List String) (q : List Char) : List String :=
  mods.filter fun m => wholeWordMatch q m.data

/-- Modifier-match count of one intent: number of patterns whose
`pattern.search(query_lower)` is truthy. -/
def modifierScore (mods : List String) (q : List Char) : ℕ :=
  (matchedModifiers mods q).length

/-- `query.lower().strip()` from `analyze_query`. -/
def queryNorm (q : String) : List Char := trimL (lowerL q.data)

def scoreInfo (q : List Char) : ℕ := modifierScore INFORMATIONAL_MODIFIERS q
def scoreNav (q : List Char) : ℕ := modifierScore NAVIGATIONAL_MODIFIERS q
def scoreComm (q : List Char) : ℕ := modifierScore COMMERCIAL_MODIFIERS q
def scoreTrans (q : List Char) : ℕ := modifierScore TRANSACTIONAL_MODIFIERS q

/-- The condition of the first heuristic branch of `_apply_heuristics`:
`query.startswith(('how ', 'what ', 'why ', 'when ', 'where '))`. -/
def startsWithInterrogative (q : List Char) : Bool :=
  ["how ", "what ", "why ", "when ", "where "].any fun w => w.data.isPrefixOf q

/-- `UserIntentAnalyzer._apply_heuristics` — fallback (intent, confidence)
when every modifier count is zero. -/
def applyHeuristics (q : List Char) : String × ℚ :=
  if startsWithInterrogative q then ("informational", 8 / 10)
  else if (splitWs q).length ≤ 2 &&
      !(containsSubL q ['?'] || containsSubL q "how".data || containsSubL q "what".data) then
    ("navigational", 6 / 10)
  else if 3 ≤ (splitWs q).length then ("informational", 5 / 10)
  else ("informational", 4 / 10)

/-- Python `max(items, key=value)` over the four (intent, score) pairs in
insertion order — the first pair with the maximal score wins, since `max`
only replaces the current best on a strictly larger key. -/
def pyMaxPair (x : String × ℕ) (xs : List (String × ℕ)) : String × ℕ :=
  xs.foldl (fun b y => if y.2 > b.2 then y else b) x

/-- Name of the primary intent chosen from the four counts (dict iteration
order: informational, navigational, commercial_investigation,
transactional). -/
def primaryIntentOf (si sn sc st : ℕ) : String :=
  (pyMaxPair ("informational", si)
    [("navigational", sn), ("commercial_investigation", sc), ("transactional", st)]).1

/-- The matched-modifier list reported for a given primary intent
(`matched_modifiers[primary_intent]`). -/
def matchedFor (intent : String) (q : List Char) : List String :=
  if intent = "informational" then matchedModifiers INFORMATIONAL_MODIFIERS q
  else if intent = "navigational" then matchedModifiers NAVIGATIONAL_MODIFIERS q
  else if intent = "commercial_investigation" then matchedModifiers COMMERCIAL_MODIFIERS q
  else if intent = "transactional" then matchedModifiers TRANSACTIONAL_MODIFIERS q
  else []

/-- Result of `UserIntentAnalyzer.analyze_query`.  The four `intent_scores`
dict entries are the four `s_` fields; the static recommendation bundle
(`_get_recommendations`, a constant lookup untouched by any property here)
is not modelled. -/
structure IntentResult where
  query : String
  primary_intent : String
  confidence : ℚ
  s_info : ℕ
  s_nav : ℕ
  s_comm : ℕ
  s_trans : ℕ
  matched_modifiers : List String
deriving DecidableEq

/-- `UserIntentAnalyzer.analyze_query`. -/
def analyzeQuery (q : String) : IntentResult :=
  let qn := queryNorm q
  let si := scoreInfo qn
  let sn := scoreNav qn
  let sc := scoreComm qn
  let st := scoreTrans qn
  if si = 0 ∧ sn = 0 ∧ sc = 0 ∧ st = 0 then
    let h := applyHeuristics qn
    { query := q, primary_intent := h.1, confidence := pyRound2 h.2,
      s_info := si, s_nav := sn, s_comm := sc, s_trans := st,
      matched_modifiers := matchedFor h.1 qn }
  else
    let maxScore := max si (max sn (max sc st))
    let total := si + sn + sc + st
    let pi := primaryIntentOf si sn sc st
    { query := q, primary_intent := pi,
      confidence := pyRound2 (if 0 < total then (maxScore : ℚ) / (total : ℚ) else 1 / 2),
      s_info := si, s_nav := sn, s_comm := sc, s_trans := st,
      matched_modifiers := matchedFor pi qn }

/-- `UserIntentAnalyzer.analyze_batch`. -/
def analyzeBatch (qs : List String) : List IntentResult := qs.map analyzeQuery

/-- Result of `UserIntentAnalyzer.get_intent_distribution`. -/
structure IntentDistribution where
  total_queries : ℕ
  d_info : ℕ
  d_nav : ℕ
  d_comm : ℕ
  d_trans : ℕ
  pct_info : ℚ
  pct_nav : ℚ
  pct_comm : ℚ
  pct_trans : ℚ
  dominant_intent : String
deriving DecidableEq

/-- `UserIntentAnalyzer.get_intent_distribution`.  The percentages divide by
`total = len(queries)` with no guard, so the empty query list raises
`ZeroDivisionError` — modelled as `none`.  The per-intent tallies model the
`distribution[result['primary_intent']] += 1` loop; the dominant intent is
`max(distribution.items(), key=...)` in the same insertion order as
`analyze_query`. -/
def getIntentDistribution (qs : List String) : Option IntentDistribution :=
  let results := analyzeBatch qs
  let ci := (results.filter (·.primary_intent = "informational")).length
  let cn := (results.filter (·.primary_intent = "navigational")).length
  let cc := (results.filter (·.primary_intent = "commercial_investigation")).length
  let ct := (results.filter (·.primary_intent = "transactional")).length
  let total := qs.length
  if total = 0 then none
  else
    some { total_queries := total,
           d_info := ci, d_nav := cn, d_comm := cc, d_trans := ct,
           pct_info := pyRound1 ((ci : ℚ) / (total : ℚ) * 100),
           pct_nav := pyRound1 ((cn : ℚ) / (total : ℚ) * 100),
           pct_comm := pyRound1 ((cc : ℚ) / (total : ℚ) * 100),
           pct_trans := pyRound1 ((ct : ℚ) / (total : ℚ) * 100),
           dominant_intent := primaryIntentOf ci cn cc ct }

/-! ## content_quality_checker.py -/

/-- Recognized metadata keys (`title`, `meta_description`, `target_keyword`);
`none` models an absent key.  `metadata.get(k, '')` is `(·.getD "")`. -/
structure Metadata where
  title : Option String
  meta_description : Option String
  target_keyword : Option String
deriving DecidableEq

/-- `ContentQualityChecker.EXPERIENCE_INDICATORS`. -/
def EXPERIENCE_INDICATORS : List String :=
  ["i tested", "i tried", "in my experience", "i found",
   "i used", "i noticed", "i discovered", "my results",
   "case study", "real-world example", "personal experience"]

/-- `ContentQualityChecker.EXPERTISE_INDICATORS`. -/
def EXPERTISE_INDICATORS : List String :=
  ["certified", "expert", "professional", "years of experience",
   "specialist", "authority", "research shows", "studies indicate",
   "according to", "data shows", "statistics reveal"]

/-- `ContentQualityChecker.TRUST_INDICATORS`. -/
def TRUST_INDICATORS : List String :=
  ["source:", "reference:", "citation:", "https://",
   "published", "peer-reviewed", "verified", "guaranteed",
   "privacy policy", "terms of service", "contact us"]

/-- `_split_sentences`: `re.split(r'[.!?]+', text)`, then strip each piece and
drop empties.  Splitting at every single separator instead of at maximal
runs yields the same list once empty pieces are filtered out. -/
def sentencesOf (cs : List Char) : List (List Char) :=
  ((splitChars (fun c => c = '.' || c = '!' || c = '?') cs).map trimL).filter (· ≠ [])

/-- Scanner state for `_split_words`. -/
structure WordScan where
  done : List (List Char)
  cur : List Char
  curOk : Bool
  prevWord : Bool

/-- One step of the `\b[a-zA-Z]+\b` scanner: a maximal ASCII-letter run is a
word exactly when the characters flanking the run are not word characters
(`\b` fails between a letter and a digit or underscore, and no shorter
sub-run can match either). -/
def wordStep (s : WordScan) (c : Char) : WordScan :=
  if c.isAlpha then
    if s.cur.isEmpty then
      { s with cur := [c], curOk := !s.prevWord, prevWord := true }
    else { s with cur := c :: s.cur, prevWord := true }
  else if s.cur.isEmpty then { s with prevWord := isWordChar c }
  else if s.curOk && !isWordChar c then
    { done := s.cur.reverse :: s.done, cur := [], curOk := false, prevWord := isWordChar c }
  else { s with cur := [], curOk := false, prevWord := isWordChar c }

/-- `_split_words`: `re.findall(r'\b[a-zA-Z]+\b', text)`. -/
def splitWords (cs : List Char) : List (List Char) :=
  let s := cs.foldl wordStep ⟨[], [], false, false⟩
  (if !s.cur.isEmpty && s.curOk then s.cur.reverse :: s.done else s.done).reverse

/-- Vowels used by `_count_syllables`. -/
def isVowel (c : Char) : Bool :=
  c = 'a' || c = 'e' || c = 'i' || c = 'o' || c = 'u' || c = 'y'

/-- `_count_syllables`: vowel-group transitions of the lowered word, minus
one for a trailing `e`, floored at one (Python returns the raw count if it
is nonzero, which for a word ending in `e` is at least zero). -/
def countSyllables (w : List Char) : ℤ :=
  let wl := lowerL w
  let groups : ℕ :=
    (wl.foldl (fun (st : ℕ × Bool) c =>
      (if isVowel c && !st.2 then st.1 + 1 else st.1, isVowel c)) (0, false)).1
  let cnt : ℤ := (groups : ℤ) - (if wl.getLast? = some 'e' then 1 else 0)
  if cnt = 0 then 1 else cnt

/-- `re.search(r'(\n-|\n\d+\.|\n•)', content)`: a line-start list marker. -/
def listMarkerSearch (cs : List Char) : Bool :=
  containsSubL cs "\n-".data || containsSubL cs "\n•".data ||
  (List.range cs.length).any fun i =>
    charAt cs i = some '\n' &&
    (let after := cs.drop (i + 1)
     let ds := after.takeWhile Char.isDigit
     !ds.isEmpty && after.get? ds.length = some '.')

/-- Whether `#{1,6}\s` matches at the head of `cs` (used after `^` or `\n`):
a run of one to six `#` followed by a whitespace character.  With seven or
more `#` no alternative count can match, since the character after at most
six consumed `#` is again `#`. -/
def hashSpaceAt (cs : List Char) : Bool :=
  let k := (cs.takeWhile (· = '#')).length
  decide (1 ≤ k) && decide (k ≤ 6) &&
    (match charAt cs k with
     | some c => isSpacePy c
     | none => false)

/-- `re.search(r'(^|\n)#{1,6}\s', content)`: a markdown heading marker. -/
def headingSearch (cs : List Char) : Bool :=
  hashSpaceAt cs ||
  (List.range cs.length).any fun i => charAt cs i = some '\n' && hashSpaceAt (cs.drop (i + 1))

/-- Length consumed by `#{1,6}\s.+` when it matches at the head of `cs`:
one to six `#`, a whitespace character, then a maximal nonempty run of
non-newline characters (`.` never crosses a newline; `.+` is greedy). -/
def headingMatchLen (cs : List Char) : Option ℕ :=
  let k := (cs.takeWhile (· = '#')).length
  if 1 ≤ k ∧ k ≤ 6 then
    match charAt cs k with
    | some c =>
      if isSpacePy c then
        let body := (cs.drop (k + 1)).takeWhile (· ≠ '\n')
        if body.isEmpty then none else some (k + 1 + body.length)
      else none
    | none => none
  else none

/-- Fuel-driven scan of `re.findall(r'(^|\n)#{1,6}\s.+', content)`:
left-to-right non-overlapping matches, each anchored at the string start or
at a consumed newline (at position zero the `^` alternative is tried first,
then the `\n` one); on failure the scan advances one character. -/
def headingCountAux : ℕ → List Char → Bool → ℕ
  | 0, _, _ => 0
  | fuel + 1, cs, atStart =>
    let attempt : Option ℕ :=
      match if atStart then headingMatchLen cs else none with
      | some L => some L
      | none =>
        match cs with
        | '\n' :: rest => (headingMatchLen rest).map (· + 1)
        | _ => none
    match attempt with
    | some L => 1 + headingCountAux fuel (cs.drop L) false
    | none =>
      match cs with
      | [] => 0
      | _ :: t => headingCountAux fuel t false

/-- Number of markdown headings: `len(re.findall(r'(^|\n)#{1,6}\s.+', content))`. -/
def headingCount (cs : List Char) : ℕ := headingCountAux (cs.length + 1) cs true

/-- Length consumed by `\[?\d+\]?|source:|reference:` matching at the head of
`cs`, if any.  The first alternative needs at least one digit (with an
optional opening bracket before and closing bracket after the digits); the
literal alternatives are tried at the same position otherwise. -/
def citMatchLen (cs : List Char) : Option ℕ :=
  let bracketless : Option ℕ :=
    let ds := cs.takeWhile Char.isDigit
    if !ds.isEmpty then
      some (ds.length + (if cs.get? ds.length = some ']' then 1 else 0))
    else if "source:".data.isPrefixOf cs then some 7
    else if "reference:".data.isPrefixOf cs then some 10
    else none
  match cs with
  | '[' :: rest =>
    let ds := rest.takeWhile Char.isDigit
    if !ds.isEmpty then
      some (1 + ds.length + (if rest.get? ds.length = some ']' then 1 else 0))
    else bracketless
  | _ => bracketless

/-- Fuel-driven scan of `re.findall(r'\[?\d+\]?|source:|reference:', ·)`. -/
def citationCountAux : ℕ → List Char → ℕ
  | 0, _ => 0
  | fuel + 1, cs =>
    match citMatchLen cs with
    | some L => 1 + citationCountAux fuel (cs.drop L)
    | none =>
      match cs with
      | [] => 0
      | _ :: t => citationCountAux fuel t

/-- `len(re.findall(r'\[?\d+\]?|source:|reference:', content_lower))`. -/
def citationCount (cs : List Char) : ℕ := citationCountAux (cs.length + 1) cs

/-- Lazy `\(.+?\)` right after a `(`: distance to the first `)` preceded by
at least one character, none of them a newline. -/
def tpClose : List Char → Bool → Option ℕ
  | [], _ => none
  | c :: rest, hasContent =>
    if c = '\n' then none
    else if c = ')' && hasContent then some 1
    else (tpClose rest true).map (· + 1)

/-- `\(.+?\)` at the head of `cs`. -/
def tryParen (cs : List Char) : Option ℕ :=
  match cs with
  | '(' :: rest => (tpClose rest false).map (· + 1)
  | _ => none

/-- Lazy `.+?\]\(.+?\)` after a `[`: candidate closing brackets are tried
left to right, and a candidate whose parenthesis part fails is re-consumed
as content (regex backtracking); newlines abort, `.` never matches them. -/
def tryClose : List Char → Bool → Option ℕ
  | [], _ => none
  | c :: rest, hasContent =>
    if c = '\n' then none
    else if c = ']' && hasContent then
      match tryParen rest with
      | some L => some (1 + L)
      | none => (tryClose rest true).map (· + 1)
    else (tryClose rest true).map (· + 1)

/-- Fuel-driven scan of `re.findall(r'\[.+?\]\(.+?\)', content)`. -/
def intLinkAux : ℕ → List Char → ℕ
  | 0, _ => 0
  | fuel + 1, cs =>
    match cs with
    | [] => 0
    | c :: rest =>
      if c = '[' then
        match tryClose rest false with
        | some L => 1 + intLinkAux fuel (rest.drop L)
        | none => intLinkAux fuel rest
      else intLinkAux fuel rest

/-- Markdown-link count: `len(re.findall(r'\[.+?\]\(.+?\)', content))`. -/
def intLinkCount (cs : List Char) : ℕ := intLinkAux (cs.length + 1) cs

/-- Fuel-driven scan of `re.findall(r'https?://', content)`; `s?` is greedy,
so `https://` is preferred at each position. -/
def extLinkAux : ℕ → List Char → ℕ
  | 0, _ => 0
  | fuel + 1, cs =>
    if "https://".data.isPrefixOf cs then 1 + extLinkAux fuel (cs.drop 8)
    else if "http://".data.isPrefixOf cs then 1 + extLinkAux fuel (cs.drop 7)
    else
      match cs with
      | [] => 0
      | _ :: t => extLinkAux fuel t

/-- External-link count: `len(re.findall(r'https?://', content))`. -/
def extLinkCount (cs : List Char) : ℕ := extLinkAux (cs.length + 1) cs

/-- `ContentQualityChecker.calculate_readability`.  `content.split('\n\n')`
is always nonempty, with one part per non-overlapping `\n\n` occurrence
plus one, so the paragraph average never divides by zero. -/
def calculateReadability (content : String) : ℚ :=
  let cs := content.data
  let sentences := sentencesOf cs
  let ws := splitWords cs
  let syllables : ℤ := (ws.map countSyllables).sum
  if sentences.isEmpty || ws.isEmpty then 0
  else
    let W : ℚ := (ws.length : ℚ)
    let S : ℚ := (sentences.length : ℚ)
    let flesch : ℚ := 206835 / 1000 - (1015 / 1000) * (W / S) - (846 / 10) * ((syllables : ℚ) / W)
    let flesch := max 0 (min 100 flesch)
    let base := flesch * (6 / 10)
    let paragraphs : ℚ := ((countSubstr cs "\n\n".data : ℕ) : ℚ) + 1
    let avgPara := W / paragraphs
    let s1 := base + (if avgPara < 100 then 10 else if avgPara < 150 then 5 else 0)
    let s2 := s1 + (if listMarkerSearch cs then 10 else 0)
    let s3 := s2 + (if headingSearch cs then 10 else 0)
    let longSentences := (sentences.filter fun s => 25 < (splitWs s).length).length
    let s4 := s3 - (if S * (3 / 10) < (longSentences : ℚ) then 10 else 0)
    max 0 (min 100 s4)

/-- `ContentQualityChecker.calculate_eeat_score`. -/
def calculateEeatScore (content : String) : ℕ :=
  let cl := lowerL content.data
  let experience := (EXPERIENCE_INDICATORS.filter fun s => containsSubL cl s.data).length
  let expertise := (EXPERTISE_INDICATORS.filter fun s => containsSubL cl s.data).length
  let trust := (TRUST_INDICATORS.filter fun s => containsSubL cl s.data).length
  let citations := citationCount cl
  let score :=
    min 30 (experience * 5) + min 30 (expertise * 5) + min 40 (trust * 4) +
    min 10 (citations * 2) +
    (if containsSubL cl ".edu".data then 5 else 0) +
    (if containsSubL cl ".gov".data then 5 else 0) +
    (if containsSubL cl ".org".data then 5 else 0)
  min 100 score

/-- `ContentQualityChecker.calculate_seo_score`. -/
def calculateSeoScore (content : String) (md : Metadata) : ℕ :=
  let tk := lowerL (md.target_keyword.getD "").data
  let title := lowerL (md.title.getD "").data
  let mdesc := lowerL (md.meta_description.getD "").data
  if tk.isEmpty then 50
  else
    let cs := content.data
    let cl := lowerL cs
    let s1 := if containsSubL title tk then 15 else 0
    let firstPara := lowerL (cs.take 500)
    let s2 := if containsSubL firstPara tk then 10 else 0
    let s3 := if containsSubL mdesc tk then 10 else 0
    let keywordCount := countSubstr cl tk
    let wordCount := (splitWords cs).length
    let s4 :=
      if 0 < wordCount then
        let density : ℚ := ((keywordCount : ℚ) / (wordCount : ℚ)) * 100
        if 1 / 2 ≤ density ∧ density ≤ 5 / 2 then 15
        else if density < 1 / 2 then 5 else 0
      else 0
    let hc := headingCount cs
    let s5 := if 3 ≤ hc then 10 else if 1 ≤ hc then 5 else 0
    let s6 := if 1500 ≤ wordCount then 15 else if 1000 ≤ wordCount then 10
      else if 500 ≤ wordCount then 5 else 0
    let il := intLinkCount cs
    let s7 := if 5 ≤ il then 10 else if 3 ≤ il then 7 else if 1 ≤ il then 4 else 0
    let el := extLinkCount cs
    let s8 := if 3 ≤ el then 10 else if 1 ≤ el then 5 else 0
    let s9 := if containsSubL cs "![".data || containsSubL cs "<img".data then 5 else 0
    min 100 (s1 + s2 + s3 + s4 + s5 + s6 + s7 + s8 + s9)

/-- `ContentQualityChecker.calculate_completeness`. -/
def calculateCompleteness (content : String) (md : Metadata) : ℕ :=
  let cs := content.data
  let cl := lowerL cs
  let s1 := if 200 < cs.length then 15 else 0
  let hc := headingCount cs
  let s2 := if 5 ≤ hc then 20 else if 3 ≤ hc then 15 else if 1 ≤ hc then 10 else 0
  let exampleCount :=
    (["example", "for instance", "such as", "like"].filter fun s => containsSubL cl s.data).length
  let s3 := if 3 ≤ exampleCount then 15 else if 1 ≤ exampleCount then 10 else 0
  let s4 := if listMarkerSearch cs then 10 else 0
  let s5 := if containsSubL cl "faq".data || containsSubL cl "frequently asked".data ||
      containsSubL cl "question".data || containsSubL cl "q&a".data then 10 else 0
  let s6 := if containsSubL cl "conclusion".data || containsSubL cl "summary".data ||
      containsSubL cl "in summary".data || containsSubL cl "to summarize".data ||
      containsSubL cl "key takeaways".data then 10 else 0
  let s7 := if ["learn more", "get started", "sign up", "download", "contact us", "try"].any
      (fun c => containsSubL cl c.data) then 10 else 0
  let s8 := if (md.title.getD "") ≠ "" ∧ (md.meta_description.getD "") ≠ "" then 10 else 0
  min 100 (s1 + s2 + s3 + s4 + s5 + s6 + s7 + s8)

/-- `ContentQualityChecker._get_grade`. -/
def getGrade (score : ℚ) : String :=
  if 90 ≤ score then "A"
  else if 80 ≤ score then "B"
  else if 70 ≤ score then "C"
  else if 60 ≤ score then "D"
  else "F"

/-- `ContentQualityChecker._generate_recommendations`. -/
def generateRecommendations (readability : ℚ) (eeat seo completeness : ℕ)
    (content : String) (md : Metadata) : List String :=
  let cs := content.data
  let cl := lowerL cs
  let r1 : List String :=
    if readability < 70 then
      ["Improve readability: Use shorter sentences and simpler words",
       "Add more headings and bullet points to break up text"]
    else []
  let r2 : List String :=
    if eeat < 70 then
      ["Add personal experience and real-world examples",
       "Include citations and references to authoritative sources",
       "Demonstrate expertise with data, statistics, and research"]
    else []
  let r3 : List String :=
    if seo < 70 then
      (let tk := md.target_keyword.getD ""
       let kwRecs : List String :=
         if tk ≠ "" then
           (if !containsSubL (lowerL (cs.take 500)) (lowerL tk.data) then
             ["Include target keyword \x27" ++ tk ++ "\x27 in the first paragraph"]
            else []) ++
           (let wc := (splitWords cs).length
            if wc < 1500 then
              ["Expand content to at least 1,500 words (currently " ++ toString wc ++ ")"]
            else [])
         else []
       kwRecs ++
         (if intLinkCount cs < 5 then
           ["Add more internal links to related content (5-10 recommended)"]
          else []))
    else []
  let r4 : List String :=
    if completeness < 70 then
      (if !(containsSubL cl "faq".data || containsSubL cl "frequently asked".data) then
        ["Add an FAQ section to address common questions"]
       else []) ++
      (if !(containsSubL cl "conclusion".data || containsSubL cl "summary".data) then
        ["Add a conclusion or summary section"]
       else [])
    else []
  let recs := r1 ++ r2 ++ r3 ++ r4
  if recs = [] then
    ["Content quality is excellent! Focus on promotion and link building."]
  else recs

/-- `QualityScore` dataclass. -/
structure QualityScore where
  overall_score : ℚ
  readability_score : ℚ
  eeat_score : ℚ
  seo_score : ℚ
  completeness_score : ℚ
  grade : String
  recommendations : List String
deriving DecidableEq

/-- `ContentQualityChecker.check_content`: the grade is computed from the
unrounded weighted average, the stored scores are rounded to one decimal. -/
def checkContent (content : String) (md : Metadata) : QualityScore :=
  let readability := calculateReadability content
  let eeat := calculateEeatScore content
  let seo := calculateSeoScore content md
  let completeness := calculateCompleteness content md
  let overall : ℚ :=
    readability * (25 / 100) + (eeat : ℚ) * (30 / 100) +
    (seo : ℚ) * (25 / 100) + (completeness : ℚ) * (20 / 100)
  { overall_score := pyRound1 overall,
    readability_score := pyRound1 readability,
    eeat_score := pyRound1 (eeat : ℚ),
    seo_score := pyRound1 (seo : ℚ),
    completeness_score := pyRound1 (completeness : ℚ),
    grade := getGrade overall,
    recommendations := generateRecommendations readability eeat seo completeness content md }

/-! ## topic_cluster_generator.py -/

/-- `ClusterContent` dataclass (after `__post_init__`); dataclass equality
compares all seven fields. -/
structure ClusterContent where
  title : String
  target_keyword : String
  search_volume : ℤ
  difficulty : String
  word_count : ℤ
  content_type : String
  url_slug : String
deriving DecidableEq

/-- `title.lower().replace(' ', '-')` — the slug default. -/
def slugify (t : String) : String :=
  String.mk ((lowerL t.data).map fun c => if c = ' ' then '-' else c)

/-- `ClusterContent(...)` constructor followed by `__post_init__`: an empty
(falsy) `url_slug` is replaced by the slugified title. -/
def mkClusterContent (title target_keyword : String) (search_volume : ℤ)
    (difficulty : String) (word_count : ℤ) (content_type : String)
    (url_slug : String) : ClusterContent :=
  { title := title, target_keyword := target_keyword, search_volume := search_volume,
    difficulty := difficulty, word_count := word_count, content_type := content_type,
    url_slug := if url_slug = "" then slugify title else url_slug }

/-- `PillarPage` dataclass (after `__post_init__`). -/
structure PillarPage where
  title : String
  target_keyword : String
  description : String
  clusters : List ClusterContent
  word_count : ℤ
  url_slug : String
deriving DecidableEq

/-- `PillarPage(...)` constructor followed by `__post_init__`. -/
def mkPillarPage (title target_keyword description : String)
    (clusters : List ClusterContent) (word_count : ℤ) (url_slug : String) : PillarPage :=
  { title := title, target_keyword := target_keyword, description := description,
    clusters := clusters, word_count := word_count,
    url_slug := if url_slug = "" then slugify title else url_slug }

/-- `SUBTOPIC_TEMPLATES['guide']`. -/
def GUIDE_TEMPLATES : List String :=
  ["What is {topic}",
   "How to {topic}",
   "{topic} for beginners",
   "{topic} best practices",
   "{topic} tips and tricks",
   "{topic} tools and resources",
   "{topic} examples",
   "{topic} mistakes to avoid",
   "{topic} checklist",
   "{topic} step by step guide"]

/-- `SUBTOPIC_TEMPLATES['product']`. -/
def PRODUCT_TEMPLATES : List String :=
  ["Best {topic}",
   "{topic} reviews",
   "{topic} comparison",
   "{topic} pricing",
   "{topic} features",
   "{topic} alternatives",
   "How to choose {topic}",
   "{topic} for small business",
   "{topic} for enterprise",
   "{topic} vs competitors"]

/-- `SUBTOPIC_TEMPLATES['service']`. -/
def SERVICE_TEMPLATES : List String :=
  ["{topic} services",
   "{topic} cost",
   "How to hire {topic}",
   "{topic} benefits",
   "{topic} process",
   "{topic} case studies",
   "{topic} ROI",
   "{topic} consultant",
   "{topic} agency",
   "DIY {topic} vs professional"]

/-- `SUBTOPIC_TEMPLATES.get(template_type, SUBTOPIC_TEMPLATES['guide'])`. -/
def templatesFor (template_type : String) : List String :=
  if template_type = "guide" then GUIDE_TEMPLATES
  else if template_type = "product" then PRODUCT_TEMPLATES
  else if template_type = "service" then SERVICE_TEMPLATES
  else GUIDE_TEMPLATES

/-- `template.format(topic=pillar_topic)`: the fixed templates contain no
brace field other than `{topic}`, so formatting is replacement of every
`{topic}` occurrence by the topic, verbatim. -/
def formatTopic (topic template : String) : String :=
  String.mk (replaceSub template.data "{topic}".data topic.data)

/-- Python slice `l[:c]` for an `int` bound `c`: a non-negative bound keeps
the first `min(c, len(l))` elements; a negative bound drops `-c` elements
from the end (clamped at zero). -/
def pySliceTo {α : Type} (l : List α) (c : ℤ) : List α :=
  if 0 ≤ c then l.take c.toNat else l.take ((l.length : ℤ) + c).toNat

/-- `TopicClusterGenerator.generate_cluster_ideas`. -/
def generateClusterIdeas (pillar_topic template_type : String) (count : ℤ) : List String :=
  (pySliceTo (templatesFor template_type) count).map (formatTopic pillar_topic)

/-- One recommended internal link (`from`/`to` are URL slugs). -/
structure LinkEdge where
  fromSlug : String
  toSlug : String
  anchor_text : String
  context : String
deriving DecidableEq

/-- The `pillar_to_clusters` edges of
`TopicClusterGenerator.generate_internal_linking_strategy`. -/
def pillarToClustersEdges (p : PillarPage) : List LinkEdge :=
  p.clusters.map fun c =>
    { fromSlug := p.url_slug, toSlug := c.url_slug, anchor_text := c.target_keyword,
      context := "Link from pillar page section about " ++ c.title }

/-- The `clusters_to_pillar` edges. -/
def clustersToPillarEdges (p : PillarPage) : List LinkEdge :=
  p.clusters.map fun c =>
    { fromSlug := c.url_slug, toSlug := p.url_slug, anchor_text := p.target_keyword,
      context := "Link to main " ++ p.title ++ " guide" }

/-- The `cluster_to_cluster` edge from `c1` to `c2`. -/
def ctcEdge (c1 c2 : ClusterContent) : LinkEdge :=
  { fromSlug := c1.url_slug, toSlug := c2.url_slug, anchor_text := c2.target_keyword,
    context := "Related topic link" }

/-- The `cluster_to_cluster` edges: for each index `i` the slice
`clusters[i+1:i+3]` is visited in order and an edge is appended unless the
two dataclasses compare equal (`if cluster1 != cluster2`). -/
def clusterToClusterEdges (p : PillarPage) : List LinkEdge :=
  p.clusters.enum.flatMap fun ic =>
    ((p.clusters.drop (ic.1 + 1)).take 2).filterMap fun c2 =>
      if ic.2 ≠ c2 then some (ctcEdge ic.2 c2) else none

/-- Result of `generate_internal_linking_strategy`. -/
structure LinkingStrategy where
  pillar_to_clusters : List LinkEdge
  clusters_to_pillar : List LinkEdge
  cluster_to_cluster : List LinkEdge
deriving DecidableEq

/-- `TopicClusterGenerator.generate_internal_linking_strategy`. -/
def generateLinkingStrategy (p : PillarPage) : LinkingStrategy :=
  { pillar_to_clusters := pillarToClustersEdges p,
    clusters_to_pillar := clustersToPillarEdges p,
    cluster_to_cluster := clusterToClusterEdges p }

/-! ### JSON export

`_export_json` builds a nested dict and returns `json.dumps(data, indent=2)`;
the Python `json` library round-trips the value through `json.loads`
faithfully, so the export is modelled at the JSON-value level. -/

/-- JSON values produced by `_export_json` (strings, integers, arrays,
key-ordered objects). -/
inductive Json where
  | str (s : String)
  | num (n : ℤ)
  | arr (elems : List Json)
  | obj (fields : List (String × Json))

/-- The cluster dict emitted inside `_export_json` — note that
`content_type` is not among the six emitted keys. -/
def clusterJson (c : ClusterContent) : Json :=
  .obj [("title", .str c.title),
        ("target_keyword", .str c.target_keyword),
        ("search_volume", .num c.search_volume),
        ("difficulty", .str c.difficulty),
        ("word_count", .num c.word_count),
        ("url_slug", .str c.url_slug)]

/-- A linking edge as emitted in the strategy dict. -/
def edgeJson (e : LinkEdge) : Json :=
  .obj [("from", .str e.fromSlug),
        ("to", .str e.toSlug),
        ("anchor_text", .str e.anchor_text),
        ("context", .str e.context)]

/-- The linking-strategy dict. -/
def strategyJson (s : LinkingStrategy) : Json :=
  .obj [("pillar_to_clusters", .arr (s.pillar_to_clusters.map edgeJson)),
        ("clusters_to_pillar", .arr (s.clusters_to_pillar.map edgeJson)),
        ("cluster_to_cluster", .arr (s.cluster_to_cluster.map edgeJson))]

/-- `TopicClusterGenerator._export_json` (the `data` dict passed to
`json.dumps`). -/
def exportJson (p : PillarPage) : Json :=
  .obj [("pillar", .obj [("title", .str p.title),
                         ("target_keyword", .str p.target_keyword),
                         ("description", .str p.description),
                         ("word_count", .num p.word_count),
                         ("url_slug", .str p.url_slug)]),
        ("clusters", .arr (p.clusters.map clusterJson)),
        ("internal_linking", strategyJson (generateLinkingStrategy p))]

/-- Key lookup in a JSON object field list (first occurrence). -/
def jlookup : List (String × Json) → String → Option Json
  | [], _ => none
  | (k, v) :: rest, key => if k = key then some v else jlookup rest key

/-- Read a JSON string. -/
def jStr : Json → Option String
  | .str s => some s
  | _ => none

/-- Read a JSON integer. -/
def jInt : Json → Option ℤ
  | .num n => some n
  | _ => none

/-- Option-valued map over a list. -/
def optMapList {α : Type} (f : Json → Option α) : List Json → Option (List α)
  | [] => some []
  | j :: js =>
    match f j, optMapList f js with
    | some a, some as => some (a :: as)
    | _, _ => none

/-- The six field values a parsed cluster object yields. -/
def readClusterFields (j : Json) : Option (String × String × ℤ × String × ℤ × String) :=
  match j with
  | .obj fs =>
    match (jlookup fs "title").bind jStr, (jlookup fs "target_keyword").bind jStr,
        (jlookup fs "search_volume").bind jInt, (jlookup fs "difficulty").bind jStr,
        (jlookup fs "word_count").bind jInt, (jlookup fs "url_slug").bind jStr with
    | some t, some k, some sv, some d, some wc, some slug => some (t, k, sv, d, wc, slug)
    | _, _, _, _, _, _ => none
  | _ => none

/-- Parsing the exported JSON value back, as the specification's round-trip
property reads it: the pillar's title, target keyword and word count, and
the per-cluster field values, in list order. -/
def readPillarExport (j : Json) :
    Option (String × String × ℤ × List (String × String × ℤ × String × ℤ × String)) :=
  match j with
  | .obj fs =>
    match jlookup fs "pillar", jlookup fs "clusters" with
    | some (.obj pf), some (.arr cl) =>
      match (jlookup pf "title").bind jStr, (jlookup pf "target_keyword").bind jStr,
          (jlookup pf "word_count").bind jInt, optMapList readClusterFields cl with
      | some t, some k, some wc, some cls => some (t, k, wc, cls)
      | _, _, _, _ => none
    | _, _ => none
  | _ => none

/-- The six exported field values of an in-memory cluster. -/
def clusterFields (c : ClusterContent) : String × String × ℤ × String × ℤ × String :=
  (c.title, c.target_keyword, c.search_volume, c.difficulty, c.word_count, c.url_slug)

/-- Default used for indexed access in the specification-side edge lists. -/
def dummyCluster : ClusterContent :=
  { title := "", target_keyword := "", search_volume := 0, difficulty := "",
    word_count := 0, content_type := "", url_slug := "" }

/-- The `cluster_to_cluster` list exactly as the claim words it: for every
index `i`, one edge to `clusters[i+1]` and one to `clusters[i+2]` whenever
the target index exists, in list order, with no other edges. -/
def ctcClaimEdges (cs : List ClusterContent) : List LinkEdge :=
  (List.range cs.length).flatMap fun i =>
    ([i + 1, i + 2].filter fun j => decide (j < cs.length)).map fun j =>
      ctcEdge (cs.getD i dummyCluster) (cs.getD j dummyCluster)

/-- The amended specification: the forward-window edges restricted to pairs
of clusters that differ as values (dataclass equality). -/
def ctcSpecEdges (cs : List ClusterContent) : List LinkEdge :=
  (List.range cs.length).flatMap fun i =>
    ([i + 1, i + 2].filter fun j =>
      decide (j < cs.length) && decide (cs.getD i dummyCluster ≠ cs.getD j dummyCluster)).map fun j =>
      ctcEdge (cs.getD i dummyCluster) (cs.getD j dummyCluster)

/-- Structural-recursion form of the `cluster_to_cluster` computation, used
to connect the implementation with the indexed specification. -/
def ctcRec : List ClusterContent → List LinkEdge
  | [] => []
  | c :: rest =>
    ((rest.take 2).filterMap fun c2 => if c ≠ c2 then some (ctcEdge c c2) else none) ++
      ctcRec rest
/-! ## Theorems -/

/-- Claim C2 (code bug witness): `get_intent_distribution` applied to the
empty query sequence raises `ZeroDivisionError` while computing the
percentages (`count / total` with `total = 0`), modelled as `none`, instead
of returning a distribution result. -/
theorem intentDistribution_empty_raises : getIntentDistribution [] = none := rfl

/-- Claim C3: whenever `metadata.target_keyword` is absent or empty, the SEO
sub-score is exactly 50, for every content string and any other metadata
values — the neutral return short-circuits all other SEO logic. -/
theorem seoScore_neutral_without_keyword (content : String) (t m : Option String) :
    calculateSeoScore content { title := t, meta_description := m, target_keyword := none } = 50 ∧
    calculateSeoScore content { title := t, meta_description := m, target_keyword := some "" } = 50 :=
  ⟨rfl, rfl⟩

/-- Claim C8: every quality sub-score lies in `[0, 100]`. -/
theorem subScores_bounded (content : String) (md : Metadata) :
    (0 ≤ calculateReadability content ∧ calculateReadability content ≤ 100) ∧
    (0 ≤ (calculateEeatScore content : ℚ) ∧ (calculateEeatScore content : ℚ) ≤ 100) ∧
    (0 ≤ (calculateSeoScore content md : ℚ) ∧ (calculateSeoScore content md : ℚ) ≤ 100) ∧
    (0 ≤ (calculateCompleteness content md : ℚ) ∧ (calculateCompleteness content md : ℚ) ≤ 100) := by
  refine ⟨?_, ⟨?_, ?_⟩, ⟨?_, ?_⟩, ⟨?_, ?_⟩⟩
  · unfold calculateReadability
    dsimp only
    split
    · norm_num
    · exact ⟨le_max_left 0 _, max_le (by norm_num) (min_le_left _ _)⟩
  · positivity
  · exact_mod_cast Nat.cast_le.mpr (Nat.min_le_left 100 _)
  · positivity
  · unfold calculateSeoScore
    dsimp only
    split
    · norm_num
    · exact_mod_cast Nat.cast_le.mpr (Nat.min_le_left 100 _)
  · positivity
  · exact_mod_cast Nat.cast_le.mpr (Nat.min_le_left 100 _)

/-- Claim C4: the overall score is the weighted sub-score sum
`0.25·readability + 0.30·eeat + 0.25·seo + 0.20·completeness` rounded to one
decimal, and the grade applies the `≥90 A / ≥80 B / ≥70 C / ≥60 D / else F`
thresholds to that weighted sum. -/
theorem checkContent_overall_grade (content : String) (md : Metadata) :
    (checkContent content md).overall_score =
      pyRound1 ((25 / 100) * calculateReadability content +
        (30 / 100) * (calculateEeatScore content : ℚ) +
        (25 / 100) * (calculateSeoScore content md : ℚ) +
        (20 / 100) * (calculateCompleteness content md : ℚ)) ∧
    (checkContent content md).grade =
      (let w := (25 / 100) * calculateReadability content +
        (30 / 100) * (calculateEeatScore content : ℚ) +
        (25 / 100) * (calculateSeoScore content md : ℚ) +
        (20 / 100) * (calculateCompleteness content md : ℚ)
       if 90 ≤ w then "A" else if 80 ≤ w then "B" else if 70 ≤ w then "C"
       else if 60 ≤ w then "D" else "F") := by
  have h : calculateReadability content * (25 / 100) +
      (calculateEeatScore content : ℚ) * (30 / 100) +
      (calculateSeoScore content md : ℚ) * (25 / 100) +
      (calculateCompleteness content md : ℚ) * (20 / 100) =
      (25 / 100) * calculateReadability content +
        (30 / 100) * (calculateEeatScore content : ℚ) +
        (25 / 100) * (calculateSeoScore content md : ℚ) +
        (20 / 100) * (calculateCompleteness content md : ℚ) := by ring
  unfold checkContent getGrade
  dsimp only
  rw [h]
  exact ⟨rfl, rfl⟩

/-- Claim C9, counterexample: at the negative count `-1`,
`generate_cluster_ideas` follows the Python slice `templates[:-1]` and
returns nine ideas, not the first `min(count, len)` templates (an empty
list) predicted by the claim. -/
theorem clusterIdeas_negative_count_cex :
    ¬(generateClusterIdeas "coffee" "guide" (-1) =
      ((templatesFor "guide").take
        ((min (-1 : ℤ) ((templatesFor "guide").length : ℤ)).toNat)).map (formatTopic "coffee")) := by
  decide

/-- Claim C9 (amended): for every non-negative count, the returned ideas are
exactly the first `min(count, len)` templates of the selected list (unknown
types fall back to the guide list inside `templatesFor`), in template-list
order, each with every `{topic}` placeholder replaced by the topic. -/
theorem clusterIdeas_take_format (topic template_type : String) (count : ℤ)
    (h : 0 ≤ count) :
    generateClusterIdeas topic template_type count =
      ((templatesFor template_type).take count.toNat).map (formatTopic topic) ∧
    (generateClusterIdeas topic template_type count).length =
      min count.toNat (templatesFor template_type).length := by
  unfold generateClusterIdeas pySliceTo
  rw [if_pos h]
  exact ⟨rfl, by simp [List.length_take]⟩

/-- Claim C9, witness: `generate_cluster_ideas("coffee", "guide", 5)` yields
exactly the first five formatted guide templates. -/
theorem clusterIdeas_take_format_witness :
    (0 : ℤ) ≤ 5 ∧
    (generateClusterIdeas "coffee" "guide" 5 =
      ((templatesFor "guide").take (5 : ℤ).toNat).map (formatTopic "coffee") ∧
    (generateClusterIdeas "coffee" "guide" 5).length =
      min (5 : ℤ).toNat (templatesFor "guide").length) :=
  ⟨by norm_num, clusterIdeas_take_format "coffee" "guide" 5 (by norm_num)⟩
/-- Shifting the starting index of an enumeration. -/
theorem enumFrom_shift {α : Type} (n : ℕ) (l : List α) :
    List.enumFrom (n + 1) l = (List.enumFrom n l).map fun p => (p.1 + 1, p.2) := by
  induction l generalizing n with
  | nil => rfl
  | cons a l ih => simp [List.enumFrom_cons, ih]

/-- The implementation's `cluster_to_cluster` loop in structural form. -/
theorem ctc_code_rec (cs : List ClusterContent) :
    (cs.enum.flatMap fun ic =>
      ((cs.drop (ic.1 + 1)).take 2).filterMap fun c2 =>
        if ic.2 ≠ c2 then some (ctcEdge ic.2 c2) else none) = ctcRec cs := by
  induction cs with
  | nil => rfl
  | cons c rest ih =>
    rw [List.enum_cons, List.flatMap_cons, show (1 : ℕ) = 0 + 1 from rfl, enumFrom_shift,
      List.flatMap_map, ctcRec]
    exact congrArg₂ (· ++ ·) rfl ih

/-- The specification-side `cluster_to_cluster` list in structural form. -/
theorem ctc_spec_rec (cs : List ClusterContent) :
    ctcSpecEdges cs = ctcRec cs := by
  induction cs with
  | nil => rfl
  | cons c rest ih =>
    unfold ctcSpecEdges at ih ⊢
    rw [List.length_cons, List.range_succ_eq_map, List.flatMap_cons, List.flatMap_map, ctcRec]
    congr 1
    · rcases rest with _ | ⟨a, _ | ⟨b, r⟩⟩ <;>
      simp [List.filterMap, List.getD] <;>
      split_ifs <;>
      simp_all
    · rw [← ih]
      congr 1
      funext a
      rw [show a.succ + 1 = a + 1 + 1 from rfl, show a.succ + 2 = a + 2 + 1 from rfl,
        show a.succ = a + 1 from rfl]
      simp only [List.filter_cons, List.filter_nil, List.getD_cons_succ,
        Nat.add_lt_add_iff_right, List.map_cons, List.map_nil]
      simp only [show ∀ m : ℕ, m + 1 + 1 = m + 2 from fun m => rfl]
      split_ifs <;>
      simp [List.getD_cons_succ,
        show ∀ (x : ClusterContent) (l : List ClusterContent) (m : ℕ) (d : ClusterContent),
          (x :: l).getD (m + 2) d = l.getD (m + 1) d from fun _ _ _ _ => rfl]

/-- Claim C1 (amended): for every pillar page, the `cluster_to_cluster` edge
list is exactly the forward-two-window list — one edge `clusters[i] →
clusters[i+1]` and one `clusters[i] → clusters[i+2]` for every index whose
target exists, in list order and with no other edges — restricted to the
pairs whose two clusters differ as dataclass values (`cluster1 != cluster2`
in the source skips value-equal pairs). -/
theorem ctc_forward_window (p : PillarPage) :
    (generateLinkingStrategy p).cluster_to_cluster = ctcSpecEdges p.clusters := by
  show clusterToClusterEdges p = ctcSpecEdges p.clusters
  rw [ctc_spec_rec, ← ctc_code_rec]
  rfl

/-- Claim C1, counterexample: a pillar whose two clusters are equal as
values gets no `cluster_to_cluster` edge at all, while the claim predicts
the edge `clusters[0] → clusters[1]` also for value-equal clusters. -/
theorem ctc_forward_window_cex :
    (generateLinkingStrategy
        (mkPillarPage "P" "kw" "d"
          [mkClusterContent "A" "ka" 1 "low" 1000 "blog_post" "",
           mkClusterContent "A" "ka" 1 "low" 1000 "blog_post" ""] 3000 "")).cluster_to_cluster ≠
      ctcClaimEdges
        (mkPillarPage "P" "kw" "d"
          [mkClusterContent "A" "ka" 1 "low" 1000 "blog_post" "",
           mkClusterContent "A" "ka" 1 "low" 1000 "blog_post" ""] 3000 "").clusters := by
  decide
/-- Reading back the exported cluster objects recovers the six emitted
fields of every cluster, in order. -/
theorem optMapList_clusterJson (cs : List ClusterContent) :
    optMapList readClusterFields (cs.map clusterJson) = some (cs.map clusterFields) := by
  induction cs with
  | nil => rfl
  | cons c rest ih => simp [optMapList, readClusterFields, clusterJson, jlookup, jStr, jInt,
      ih, clusterFields, List.map_cons]

/-- Claim C6 (amended): parsing the JSON export back yields the pillar's
title, target keyword and word count, and the full cluster list in order
with the six emitted per-cluster fields (title, target_keyword,
search_volume, difficulty, word_count, url_slug) equal to the in-memory
values; the `content_type` field is not emitted by `_export_json` and is
therefore not recoverable. -/
theorem exportJson_roundtrip (p : PillarPage) :
    readPillarExport (exportJson p) =
      some (p.title, p.target_keyword, p.word_count, p.clusters.map clusterFields) := by
  simp [readPillarExport, exportJson, jlookup, jStr, jInt, optMapList_clusterJson]

/-- Claim C6, counterexample: two pillar pages that differ only in a
cluster's `content_type` have identical JSON exports, so no parse of the
export can restore every cluster field value. -/
theorem exportJson_roundtrip_cex :
    mkPillarPage "P" "pk" "d" [mkClusterContent "T" "k" 1 "low" 100 "video" "s"] 3000 "ps" ≠
      mkPillarPage "P" "pk" "d" [mkClusterContent "T" "k" 1 "low" 100 "blog_post" "s"] 3000 "ps" ∧
    exportJson
        (mkPillarPage "P" "pk" "d" [mkClusterContent "T" "k" 1 "low" 100 "video" "s"] 3000 "ps") =
      exportJson
        (mkPillarPage "P" "pk" "d" [mkClusterContent "T" "k" 1 "low" 100 "blog_post" "s"] 3000 "ps") :=
  ⟨by decide, rfl⟩
/-- Python `max` over the four ordered (intent, count) pairs picks the first
intent whose count equals the maximum. -/
theorem primaryIntent_first_argmax (si sn sc st : ℕ) :
    primaryIntentOf si sn sc st =
      (if sn ≤ si ∧ sc ≤ si ∧ st ≤ si then "informational"
       else if sc ≤ sn ∧ st ≤ sn then "navigational"
       else if st ≤ sc then "commercial_investigation"
       else "transactional") := by
  simp only [primaryIntentOf, pyMaxPair, List.foldl]
  split_ifs <;> first | rfl | omega

/-- Claim C5: whenever some intent has a nonzero modifier-match count, the
primary intent returned by `analyze_query` is the intent with the maximum
count, ties resolved in favor of the earlier intent in the fixed order
informational, navigational, commercial_investigation, transactional. -/
theorem analyzeQuery_primary_intent (q : String)
    (h : ¬(scoreInfo (queryNorm q) = 0 ∧ scoreNav (queryNorm q) = 0 ∧
      scoreComm (queryNorm q) = 0 ∧ scoreTrans (queryNorm q) = 0)) :
    (analyzeQuery q).primary_intent =
      (if scoreNav (queryNorm q) ≤ scoreInfo (queryNorm q) ∧
          scoreComm (queryNorm q) ≤ scoreInfo (queryNorm q) ∧
          scoreTrans (queryNorm q) ≤ scoreInfo (queryNorm q) then "informational"
       else if scoreComm (queryNorm q) ≤ scoreNav (queryNorm q) ∧
          scoreTrans (queryNorm q) ≤ scoreNav (queryNorm q) then "navigational"
       else if scoreTrans (queryNorm q) ≤ scoreComm (queryNorm q) then "commercial_investigation"
       else "transactional") := by
  unfold analyzeQuery
  dsimp only
  rw [if_neg h]
  exact primaryIntent_first_argmax _ _ _ _

/-- Claim C5, witness at the query "buy coffee" (transactional count 1, all
other counts 0, so the returned primary intent is transactional). -/
theorem analyzeQuery_primary_intent_witness :
    ¬(scoreInfo (queryNorm "buy coffee") = 0 ∧ scoreNav (queryNorm "buy coffee") = 0 ∧
      scoreComm (queryNorm "buy coffee") = 0 ∧ scoreTrans (queryNorm "buy coffee") = 0) ∧
    (analyzeQuery "buy coffee").primary_intent =
      (if scoreNav (queryNorm "buy coffee") ≤ scoreInfo (queryNorm "buy coffee") ∧
          scoreComm (queryNorm "buy coffee") ≤ scoreInfo (queryNorm "buy coffee") ∧
          scoreTrans (queryNorm "buy coffee") ≤ scoreInfo (queryNorm "buy coffee") then "informational"
       else if scoreComm (queryNorm "buy coffee") ≤ scoreNav (queryNorm "buy coffee") ∧
          scoreTrans (queryNorm "buy coffee") ≤ scoreNav (queryNorm "buy coffee") then "navigational"
       else if scoreTrans (queryNorm "buy coffee") ≤ scoreComm (queryNorm "buy coffee") then
         "commercial_investigation"
       else "transactional") :=
  ⟨by decide, analyzeQuery_primary_intent "buy coffee" (by decide)⟩

/-- `pyRound` above the midpoint rounds up. -/
theorem pyRound_eq_high (q : ℚ) (z : ℤ) (h1 : (z : ℚ) + 1 / 2 < q) (h2 : q < (z : ℚ) + 1) :
    pyRound q = z + 1 := by
  have hf : ⌊q⌋ = z := by
    rw [Int.floor_eq_iff]
    refine ⟨by linarith, ?_⟩
    linarith
  unfold pyRound
  dsimp only
  rw [hf, if_neg (show ¬(q - (z : ℚ) < 1 / 2) by linarith),
    if_pos (show (1 : ℚ) / 2 < q - (z : ℚ) by linarith)]

/-- Claim C7 (amended): whenever some intent has a nonzero modifier-match
count, the confidence returned by `analyze_query` is `max_count / total`
rounded to two decimals (Python `round`), where `total` is the sum of all
four counts. -/
theorem analyzeQuery_confidence (q : String)
    (h : ¬(scoreInfo (queryNorm q) = 0 ∧ scoreNav (queryNorm q) = 0 ∧
      scoreComm (queryNorm q) = 0 ∧ scoreTrans (queryNorm q) = 0)) :
    (analyzeQuery q).confidence =
      pyRound2 ((max (scoreInfo (queryNorm q)) (max (scoreNav (queryNorm q))
          (max (scoreComm (queryNorm q)) (scoreTrans (queryNorm q)))) : ℚ) /
        ((scoreInfo (queryNorm q) + scoreNav (queryNorm q) +
          scoreComm (queryNorm q) + scoreTrans (queryNorm q) : ℕ) : ℚ)) := by
  unfold analyzeQuery
  dsimp only
  rw [if_neg h, if_pos (show 0 < scoreInfo (queryNorm q) + scoreNav (queryNorm q) +
    scoreComm (queryNorm q) + scoreTrans (queryNorm q) by omega)]
  push_cast
  rfl

/-- Claim C7, witness at the query "buy coffee". -/
theorem analyzeQuery_confidence_witness :
    ¬(scoreInfo (queryNorm "buy coffee") = 0 ∧ scoreNav (queryNorm "buy coffee") = 0 ∧
      scoreComm (queryNorm "buy coffee") = 0 ∧ scoreTrans (queryNorm "buy coffee") = 0) ∧
    (analyzeQuery "buy coffee").confidence =
      pyRound2 ((max (scoreInfo (queryNorm "buy coffee")) (max (scoreNav (queryNorm "buy coffee"))
          (max (scoreComm (queryNorm "buy coffee")) (scoreTrans (queryNorm "buy coffee")))) : ℚ) /
        ((scoreInfo (queryNorm "buy coffee") + scoreNav (queryNorm "buy coffee") +
          scoreComm (queryNorm "buy coffee") + scoreTrans (queryNorm "buy coffee") : ℕ) : ℚ)) :=
  ⟨by decide, analyzeQuery_confidence "buy coffee" (by decide)⟩

/-- Claim C7, counterexample: for the query "how what compare" the counts
are (2, 0, 1, 0) and the returned confidence is `round(2/3, 2) = 0.67`,
which is not exactly `max_count / total = 2/3`. -/
theorem analyzeQuery_confidence_cex :
    ¬((analyzeQuery "how what compare").confidence =
      ((max (scoreInfo (queryNorm "how what compare")) (max (scoreNav (queryNorm "how what compare"))
          (max (scoreComm (queryNorm "how what compare")) (scoreTrans (queryNorm "how what compare")))) : ℚ) /
        ((scoreInfo (queryNorm "how what compare") + scoreNav (queryNorm "how what compare") +
          scoreComm (queryNorm "how what compare") + scoreTrans (queryNorm "how what compare") : ℕ) : ℚ))) := by
  have hi : scoreInfo (queryNorm "how what compare") = 2 := by decide
  have hn : scoreNav (queryNorm "how what compare") = 0 := by decide
  have hc : scoreComm (queryNorm "how what compare") = 1 := by decide
  have ht : scoreTrans (queryNorm "how what compare") = 0 := by decide
  have hval : (analyzeQuery "how what compare").confidence = 67 / 100 := by
    unfold analyzeQuery
    dsimp only
    rw [hi, hn, hc, ht, if_neg (by norm_num), if_pos (by norm_num)]
    have hmax : (max 2 (max 0 (max 1 0)) : ℕ) = 2 := rfl
    rw [hmax]
    have harg : ((2 : ℕ) : ℚ) / ((2 + 0 + 1 + 0 : ℕ) : ℚ) = 2 / 3 := by norm_num
    rw [harg]
    unfold pyRound2
    rw [pyRound_eq_high (2 / 3 * 100 : ℚ) 66 (by norm_num) (by norm_num)]
    norm_num
  rw [hval, hi, hn, hc, ht]
  push_cast
  norm_num
/-- Whole-word match of "how" at the head of a query of the form
`"how " ++ t`. -/
theorem wwm_how (t : List Char) :
    wholeWordMatch ('h' :: 'o' :: 'w' :: ' ' :: t) "how".data = true := by
  unfold wholeWordMatch
  rw [List.any_eq_true]
  exact ⟨0, List.mem_range.mpr (Nat.succ_pos _), rfl⟩

/-- Whole-word match of "what" at the head of `"what " ++ t`. -/
theorem wwm_what (t : List Char) :
    wholeWordMatch ('w' :: 'h' :: 'a' :: 't' :: ' ' :: t) "what".data = true := by
  unfold wholeWordMatch
  rw [List.any_eq_true]
  exact ⟨0, List.mem_range.mpr (Nat.succ_pos _), rfl⟩

/-- Whole-word match of "why" at the head of `"why " ++ t`. -/
theorem wwm_why (t : List Char) :
    wholeWordMatch ('w' :: 'h' :: 'y' :: ' ' :: t) "why".data = true := by
  unfold wholeWordMatch
  rw [List.any_eq_true]
  exact ⟨0, List.mem_range.mpr (Nat.succ_pos _), rfl⟩

/-- Whole-word match of "when" at the head of `"when " ++ t`. -/
theorem wwm_when (t : List Char) :
    wholeWordMatch ('w' :: 'h' :: 'e' :: 'n' :: ' ' :: t) "when".data = true := by
  unfold wholeWordMatch
  rw [List.any_eq_true]
  exact ⟨0, List.mem_range.mpr (Nat.succ_pos _), rfl⟩

/-- Whole-word match of "where" at the head of `"where " ++ t`. -/
theorem wwm_where (t : List Char) :
    wholeWordMatch ('w' :: 'h' :: 'e' :: 'r' :: 'e' :: ' ' :: t) "where".data = true := by
  unfold wholeWordMatch
  rw [List.any_eq_true]
  exact ⟨0, List.mem_range.mpr (Nat.succ_pos _), rfl⟩

/-- Claim C10: on a query with zero modifier matches for all four intents,
the first heuristic branch of `_apply_heuristics` is unreachable — each
interrogative prefix word is itself an informational modifier matched as a
whole word — so the fallback confidence is always 0.6, 0.5 or 0.4. -/
theorem heuristics_interrogative_unreachable (q : String)
    (h : scoreInfo (queryNorm q) = 0 ∧ scoreNav (queryNorm q) = 0 ∧
      scoreComm (queryNorm q) = 0 ∧ scoreTrans (queryNorm q) = 0) :
    startsWithInterrogative (queryNorm q) = false ∧
    ((applyHeuristics (queryNorm q)).2 = 6 / 10 ∨ (applyHeuristics (queryNorm q)).2 = 5 / 10 ∨
      (applyHeuristics (queryNorm q)).2 = 4 / 10) := by
  have hnone : ∀ m ∈ INFORMATIONAL_MODIFIERS, ¬(wholeWordMatch (queryNorm q) m.data = true) := by
    have hinfo := h.1
    rw [scoreInfo, modifierScore, List.length_eq_zero, matchedModifiers,
      List.filter_eq_nil_iff] at hinfo
    exact hinfo
  have hfalse : startsWithInterrogative (queryNorm q) = false := by
    by_contra hb
    rw [Bool.not_eq_false, startsWithInterrogative, List.any_eq_true] at hb
    obtain ⟨w, hw, hpre⟩ := hb
    rw [List.isPrefixOf_iff_prefix] at hpre
    obtain ⟨t, ht⟩ := hpre
    fin_cases hw
    · exact hnone "how" (by decide) (by rw [← ht]; exact wwm_how t)
    · exact hnone "what" (by decide) (by rw [← ht]; exact wwm_what t)
    · exact hnone "why" (by decide) (by rw [← ht]; exact wwm_why t)
    · exact hnone "when" (by decide) (by rw [← ht]; exact wwm_when t)
    · exact hnone "where" (by decide) (by rw [← ht]; exact wwm_where t)
  refine ⟨hfalse, ?_⟩
  unfold applyHeuristics
  rw [hfalse]
  simp only [Bool.false_eq_true, if_false]
  split_ifs <;> simp

/-- Claim C10, witness at the query "zzz" (no modifier matches; one word,
no question substring, so the fallback yields navigational, 0.6). -/
theorem heuristics_interrogative_unreachable_witness :
    (scoreInfo (queryNorm "zzz") = 0 ∧ scoreNav (queryNorm "zzz") = 0 ∧
      scoreComm (queryNorm "zzz") = 0 ∧ scoreTrans (queryNorm "zzz") = 0) ∧
    (startsWithInterrogative (queryNorm "zzz") = false ∧
    ((applyHeuristics (queryNorm "zzz")).2 = 6 / 10 ∨ (applyHeuristics (queryNorm "zzz")).2 = 5 / 10 ∨
      (applyHeuristics (queryNorm "zzz")).2 = 4 / 10)) :=
  ⟨by decide, heuristics_interrogative_unreachable "zzz" (by decide)⟩
